import Mathlib

/-!
Shallow embedding of the Cloudflare Worker in `src/index.ts` of
erickzhao/redirect (packages.electronjs.org).

The worker's `fetch(request, env)` handler parses the request path with the
regex `^\/([^\/]+)(?:\/latest(\/.*)?|\/?)?$`, looks the package name up in a
KV cache, on a falsy result queries the npm registry, writes a usable npm
version back to KV with a 600-second expiration TTL, and finally builds a
302 redirect `https://packages.electronjs.org/<name>/v<version>/index.html`
carrying over the original query string. Non-matching paths are redirected
to the service root; an exception anywhere in the try block falls through to
`return fetch(request)` (pass-through to the fallback origin).

External collaborators (the KV store and the upstream registry) are modelled
as per-request oracles: the value the KV `get` would return, whether `get` /
`put` / the upstream fetch / `_req.json()` would throw, whether the upstream
response is `ok`, and the `version` field of its JSON body. The handler is a
pure function of the request and these oracles, returning the HTTP outcome
together with a log of the side effects performed (cache reads, cache writes
with their TTL, upstream calls by URL).

The matcher note: `url.pathname` never contains raw line terminators (the
URL parser strips or percent-encodes them), so the JS `.` in `(\/.*)?` is
modelled as matching any character.
-/

namespace Redirect

/-- Outcome of one invocation of the worker's `fetch` handler:
either a `Response.redirect(url, status)` or the pass-through
`return fetch(request)` that forwards the original request. -/
inductive HandlerResult where
  | redirect (url : String) (status : Nat)
  | passThrough
deriving DecidableEq, Repr

/-- Side effects performed during one invocation: number of KV reads,
the KV writes as `(key, value, expirationTtl)` triples, and the upstream
registry calls by URL. The pass-through fetch of the original request is
recorded by `HandlerResult.passThrough`, not here. -/
structure Effects where
  cacheReads : Nat
  cacheWrites : List (String × String × Nat)
  upstreamCalls : List String
deriving DecidableEq, Repr

/-- Per-request oracle for the KV binding `env.KV`: the value `get` would
return (`none` models JavaScript `null`, i.e. an absent entry), and whether
`get` or `put` would throw. -/
structure KVStore where
  val : String → Option String
  getThrows : Bool
  putThrows : Bool

/-- Per-request oracle for the upstream npm registry fetch: whether the
fetch itself throws, the `_req.ok` flag, whether `_req.json()` throws
(unparsable body), and the `version` field of the parsed body (`none`
models an absent / `undefined` field). -/
structure UpstreamResp where
  fetchThrows : Bool
  ok : Bool
  jsonThrows : Bool
  version : Option String

/-- The environment of one invocation: the KV oracle and the upstream
registry oracle, keyed by package name. -/
structure Env where
  kv : KVStore
  upstream : String → UpstreamResp

/-- The parts of the incoming request the handler reads: `url.pathname`
and `url.search` (empty, or starting with `?`). -/
structure Request where
  pathname : String
  search : String

/-- The fixed base origin `https://packages.electronjs.org` used both for
the no-match redirect and as the base of resolved redirects. -/
def baseOrigin : String := "https://packages.electronjs.org"

/-- The upstream registry URL template
`https://registry.npmjs.org/@electron/<name>/latest`. -/
def registryUrl (name : String) : String :=
  "https://registry.npmjs.org/@electron/" ++ name ++ "/latest"

/-- Embedding of the path matcher
`pathname.match(/^\/([^\/]+)(?:\/latest(\/.*)?|\/?)?$/)`, returning the
first capture group on success. The path must start with `/`, followed by
a nonempty run of non-`/` characters (the package name), followed by one
of: nothing, `/`, `/latest`, or `/latest/` plus anything. -/
def pathMatch (p : String) : Option String :=
  match p.data with
  | '/' :: rest =>
    let nm := rest.takeWhile (fun c => c != '/')
    let tl := rest.dropWhile (fun c => c != '/')
    if nm.isEmpty then none
    else if tl == [] || tl == ['/'] || tl == "/latest".data || ("/latest/".data).isPrefixOf tl then
      some (String.mk nm)
    else none
  | _ => none

/-- JavaScript truthiness of the `version` value (a string or `null` /
`undefined`): `null`, `undefined` and `""` are falsy. -/
def truthy : Option String → Bool
  | none => false
  | some s => s != ""

/-- String interpolation of the `version` variable into the template
literal: JavaScript renders `null` as `"null"`. -/
def renderVersion : Option String → String
  | none => "null"
  | some s => s

/-- The redirect the handler builds at the end of the try block:
`new URL(`/<name>/v<version>/index.html`, baseOrigin)` with
`redirectUrl.search = url.search`, returned with status 302. -/
def redirectFor (name : String) (version : Option String) (search : String) : HandlerResult :=
  HandlerResult.redirect
    (baseOrigin ++ "/" ++ name ++ "/v" ++ renderVersion version ++ "/index.html" ++ search) 302

/-- Embedding of the matched branch of the handler (the try/catch block of
`src/index.ts`): read KV; on a falsy value query the upstream registry and,
on `ok` with a truthy `version` field, write it to KV with TTL 600 and adopt
it; then unconditionally build the redirect. Any throw (KV get, upstream
fetch, `_req.json()`, KV put) lands in the catch and the function falls
through to pass-through. -/
def handleMatched (name search : String) (env : Env) : HandlerResult × Effects :=
  if env.kv.getThrows then
    (HandlerResult.passThrough, ⟨1, [], []⟩)
  else
    let cached := env.kv.val name
    if truthy cached then
      (redirectFor name cached search, ⟨1, [], []⟩)
    else
      let r := env.upstream name
      if r.fetchThrows then
        (HandlerResult.passThrough, ⟨1, [], [registryUrl name]⟩)
      else if r.ok then
        if r.jsonThrows then
          (HandlerResult.passThrough, ⟨1, [], [registryUrl name]⟩)
        else
          match r.version with
          | some v =>
            if v != "" then
              if env.kv.putThrows then
                (HandlerResult.passThrough, ⟨1, [], [registryUrl name]⟩)
              else
                (redirectFor name (some v) search, ⟨1, [(name, v, 600)], [registryUrl name]⟩)
            else
              (redirectFor name cached search, ⟨1, [], [registryUrl name]⟩)
          | none =>
            (redirectFor name cached search, ⟨1, [], [registryUrl name]⟩)
      else
        (redirectFor name cached search, ⟨1, [], [registryUrl name]⟩)

/-- Embedding of the whole `fetch` handler: match the path; on a match run
the resolution branch; otherwise redirect to the bare base origin with
status 302 (no side effects). -/
def handleRequest (req : Request) (env : Env) : HandlerResult × Effects :=
  match pathMatch req.pathname with
  | some name => handleMatched name req.search env
  | none => (HandlerResult.redirect baseOrigin 302, ⟨0, [], []⟩)

/-- The version the handler's `version` variable holds at the redirect
construction point, when it is a usable (truthy) string obtained without
any throw: the cached value on a truthy KV hit, else the upstream `version`
field when the fetch is `ok`, the body parses, the field is truthy and the
KV put succeeds; `none` otherwise. -/
def obtainedVersion (name : String) (env : Env) : Option String :=
  if env.kv.getThrows then none
  else if truthy (env.kv.val name) then env.kv.val name
  else
    let r := env.upstream name
    if r.fetchThrows then none
    else if r.ok then
      if r.jsonThrows then none
      else
        match r.version with
        | some v => if v != "" then (if env.kv.putThrows then none else some v) else none
        | none => none
    else none

/-- KV oracle for an empty cache. -/
def kvEmpty : KVStore := ⟨fun _ => none, false, false⟩

/-- KV oracle holding the single entry `asar ↦ 4.0.1`. -/
def kvAsar : KVStore := ⟨fun k => if k = "asar" then some "4.0.1" else none, false, false⟩

/-- KV oracle whose `get` throws. -/
def kvGetFails : KVStore := ⟨fun _ => none, true, false⟩

/-- KV oracle for an empty cache whose `put` throws. -/
def kvPutFails : KVStore := ⟨fun _ => none, false, true⟩

/-- Upstream oracle answering every package with a non-success status. -/
def upstreamDown : String → UpstreamResp := fun _ => ⟨false, false, false, none⟩

/-- Upstream oracle answering every package with `ok` and version `5.0.0`. -/
def upstreamOk : String → UpstreamResp := fun _ => ⟨false, true, false, some "5.0.0"⟩

/-- Environment with the `asar` cache entry and a failing upstream. -/
def envHit : Env := ⟨kvAsar, upstreamDown⟩

/-- Environment with an empty cache and a healthy upstream. -/
def envMiss : Env := ⟨kvEmpty, upstreamOk⟩

/-- Environment with an empty cache and a failing upstream. -/
def envDown : Env := ⟨kvEmpty, upstreamDown⟩

/-- Environment whose KV read throws, over a healthy upstream. -/
def envReadFails : Env := ⟨kvGetFails, upstreamOk⟩

/-- Environment whose KV write throws, over a healthy upstream. -/
def envWriteFails : Env := ⟨kvPutFails, upstreamOk⟩

/-- KV oracle whose `get` returns the empty string for `qux`. -/
def kvEmptyStr : KVStore := ⟨fun k => if k = "qux" then some "" else none, false, false⟩

/-- Environment mapping `qux` to the empty string, over a healthy upstream. -/
def envEmptyStr : Env := ⟨kvEmptyStr, upstreamOk⟩

/-- Helper: a list is a Boolean prefix of itself followed by anything. -/
theorem isPrefixOf_self_append (l r : List Char) : l.isPrefixOf (l ++ r) = true := by
  induction l with
  | nil => simp [List.isPrefixOf]
  | cons a t ih => simp [List.isPrefixOf, ih]

/-- Helper: `takeWhile`/`dropWhile` with the non-slash test pass over a
slash-free prefix untouched. -/
theorem takeWhile_no_slash (l r : List Char) (h : ∀ c ∈ l, (c != '/') = true) :
    (l ++ r).takeWhile (fun c => c != '/') = l ++ r.takeWhile (fun c => c != '/') ∧
    (l ++ r).dropWhile (fun c => c != '/') = r.dropWhile (fun c => c != '/') := by
  induction l with
  | nil => simp
  | cons a t ih =>
    have ha : (a != '/') = true := h a (List.mem_cons_self a t)
    have ht : ∀ c ∈ t, (c != '/') = true := fun c hc => h c (List.mem_cons_of_mem a hc)
    obtain ⟨ih1, ih2⟩ := ih ht
    refine ⟨?_, ?_⟩
    · simp [List.takeWhile_cons, ha, ih1]
    · simp [List.dropWhile_cons, ha, ih2]

/-- Helper: on a slash-free list the non-slash `takeWhile` keeps everything
and `dropWhile` drops everything. -/
theorem takeWhile_all_no_slash (l : List Char) (h : ∀ c ∈ l, (c != '/') = true) :
    l.takeWhile (fun c => c != '/') = l ∧ l.dropWhile (fun c => c != '/') = [] := by
  simpa using takeWhile_no_slash l [] h

/-- Helper: the handler's response when a version was obtained is the
redirect built from that version. -/
theorem handleMatched_fst_obtained (name search : String) (env : Env) (v : String)
    (h : obtainedVersion name env = some v) :
    (handleMatched name search env).1 = redirectFor name (some v) search := by
  obtain ⟨⟨val, gt, pt⟩, up⟩ := env
  rcases hu : up name with ⟨ft, ok, jt, ver⟩
  simp only [obtainedVersion, hu] at h
  simp only [handleMatched, hu]
  cases gt <;> cases pt <;> cases ft <;> cases ok <;> cases jt <;>
    rcases ver with _ | w <;>
    cases htv : truthy (val name) <;>
    simp_all <;>
    rcases hw : (w != "") <;> simp_all

/-- Helper: the effects of a matched request are always one cache read,
and either no upstream call and no write, or one upstream call with no
write, or one upstream call with one TTL-600 write under the package
name. -/
theorem handleMatched_effects (name search : String) (env : Env) :
    (handleMatched name search env).2 = ⟨1, [], []⟩ ∨
    (handleMatched name search env).2 = ⟨1, [], [registryUrl name]⟩ ∨
    ∃ v, (handleMatched name search env).2 = ⟨1, [(name, v, 600)], [registryUrl name]⟩ := by
  obtain ⟨⟨val, gt, pt⟩, up⟩ := env
  rcases hu : up name with ⟨ft, ok, jt, ver⟩
  simp only [handleMatched, hu]
  cases gt <;> cases pt <;> cases ft <;> cases ok <;> cases jt <;>
    rcases ver with _ | w <;>
    cases htv : truthy (val name) <;>
    simp_all <;>
    rcases hw : (w != "") <;> simp_all

/-- Helper: evaluation of the matcher on a string starting with `/`. -/
theorem pathMatch_mk (l : List Char) :
    pathMatch (String.mk ('/' :: l)) =
      (if (l.takeWhile (fun c => c != '/')).isEmpty then none
       else if (l.dropWhile (fun c => c != '/')) == [] ||
               (l.dropWhile (fun c => c != '/')) == ['/'] ||
               (l.dropWhile (fun c => c != '/')) == "/latest".data ||
               ("/latest/".data).isPrefixOf (l.dropWhile (fun c => c != '/')) then
         some (String.mk (l.takeWhile (fun c => c != '/')))
       else none) := rfl

/-- Helper: character-list form of a bare-name path. -/
theorem slash_append (name : String) : ("/" ++ name) = String.mk ('/' :: name.data) := rfl

/-- Helper: character-list form of a name path with trailing slash. -/
theorem slash_append2 (name : String) :
    ("/" ++ name ++ "/") = String.mk ('/' :: (name.data ++ ['/'])) := rfl

/-- Helper: character-list form of a name path with `/latest`. -/
theorem slash_append3 (name : String) :
    ("/" ++ name ++ "/latest") = String.mk ('/' :: (name.data ++ "/latest".data)) := rfl

/-- Helper: character-list form of a name path with `/latest/` and a rest. -/
theorem slash_append4 (name rest : String) :
    ("/" ++ name ++ "/latest/" ++ rest) =
      String.mk ('/' :: (name.data ++ ("/latest/".data ++ rest.data))) := by
  apply String.ext
  simp [String.data_append]

/-- C1: with an empty cache and the upstream registry returning a
non-success status, the handler for `/bar` does NOT pass through: it
returns a 302 redirect to `.../bar/vnull/index.html`, interpolating the
null version into the redirect URL. The claim (and the worker's own header
comment, and the pass-through statement after the try/catch) intend a
pass-through here; the code reaches the redirect construction
unconditionally because it sits outside any check that a version was
found. -/
theorem upstream_failure_still_redirects :
    handleRequest ⟨"/bar", ""⟩ envDown =
      (HandlerResult.redirect "https://packages.electronjs.org/bar/vnull/index.html" 302,
       ⟨1, [], [registryUrl "bar"]⟩) := by decide

/-- C2 counterexample: on a cache hit for `asar` at `/asar/latest` the
redirect target ends in `/index.html`, and it differs from the claimed
composition that ends in `/index.index`. -/
theorem redirect_target_not_index_index :
    (handleRequest ⟨"/asar/latest", ""⟩ envHit).1 =
      HandlerResult.redirect "https://packages.electronjs.org/asar/v4.0.1/index.html" 302 ∧
    "https://packages.electronjs.org/asar/v4.0.1/index.html" ≠
      "https://packages.electronjs.org" ++ "/" ++ "asar" ++ "/v" ++ "4.0.1" ++
        "/index.index" ++ "" := by decide

/-- C2 (amended: the fixed trailing document segment is `/index.html`, not
`/index.index`): for every request for which a version was obtained (from
cache or upstream), the response is an HTTP 302 redirect to
the fixed base origin ++ `/` ++ package name ++ `/v` ++ version ++
`/index.html`, with the original request's query string reattached. -/
theorem redirect_target_composition (req : Request) (env : Env) (name v : String)
    (hm : pathMatch req.pathname = some name)
    (hv : obtainedVersion name env = some v) :
    (handleRequest req env).1 =
      HandlerResult.redirect
        (baseOrigin ++ "/" ++ name ++ "/v" ++ v ++ "/index.html" ++ req.search) 302 := by
  have h := handleMatched_fst_obtained name req.search env v hv
  simp only [handleRequest, hm]
  rw [h]
  rfl

/-- C2 witness: cache hit `asar ↦ 4.0.1` at `/asar/latest?foo=bar`. -/
theorem redirect_target_composition_witness :
    (handleRequest ⟨"/asar/latest", "?foo=bar"⟩ envHit).1 =
      HandlerResult.redirect
        (baseOrigin ++ "/" ++ "asar" ++ "/v" ++ "4.0.1" ++ "/index.html" ++ "?foo=bar") 302 :=
  redirect_target_composition ⟨"/asar/latest", "?foo=bar"⟩ envHit "asar" "4.0.1"
    (by decide) (by decide)

/-- C3 counterexample: when the KV read throws on `/foo` while the upstream
would succeed with version 5.0.0, the handler does NOT continue via the
upstream: it makes no upstream call and passes through. -/
theorem cache_throw_skips_upstream :
    handleRequest ⟨"/foo", ""⟩ envReadFails =
      (HandlerResult.passThrough, ⟨1, [], []⟩) := by decide

/-- C3 (amended): a throwing cache read or cache write is caught by the
top-level catch and the request is passed through to the fallback origin;
after a read failure no upstream query is made, and after a write failure
no redirect is produced even though the upstream resolution succeeded. -/
theorem cache_throw_passes_through :
    (∀ (req : Request) (env : Env) (name : String),
        pathMatch req.pathname = some name →
        env.kv.getThrows = true →
        handleRequest req env = (HandlerResult.passThrough, ⟨1, [], []⟩)) ∧
    (∀ (req : Request) (env : Env) (name v : String),
        pathMatch req.pathname = some name →
        env.kv.getThrows = false →
        truthy (env.kv.val name) = false →
        (env.upstream name).fetchThrows = false →
        (env.upstream name).ok = true →
        (env.upstream name).jsonThrows = false →
        (env.upstream name).version = some v →
        v ≠ "" →
        env.kv.putThrows = true →
        handleRequest req env =
          (HandlerResult.passThrough, ⟨1, [], [registryUrl name]⟩)) := by
  constructor
  · intro req env name hm hg
    simp [handleRequest, hm, handleMatched, hg]
  · intro req env name v hm hg ht hf ho hj hv hne hp
    have hb : (v != "") = true := bne_iff_ne.mpr hne
    simp [handleRequest, hm, handleMatched, hg, ht, hf, ho, hj, hv, hb, hp]

/-- C3 witness: a throwing KV read on `/foo`, and a throwing KV write on
`/foo` after a successful upstream resolution of version 5.0.0. -/
theorem cache_throw_passes_through_witness :
    handleRequest ⟨"/foo", ""⟩ envReadFails = (HandlerResult.passThrough, ⟨1, [], []⟩) ∧
    handleRequest ⟨"/foo", ""⟩ envWriteFails =
      (HandlerResult.passThrough, ⟨1, [], [registryUrl "foo"]⟩) :=
  ⟨cache_throw_passes_through.1 ⟨"/foo", ""⟩ envReadFails "foo" (by decide) (by decide),
   cache_throw_passes_through.2 ⟨"/foo", ""⟩ envWriteFails "foo" "5.0.0"
     (by decide) (by decide) (by decide) (by decide) (by decide) (by decide) (by decide)
     (by decide) (by decide)⟩

/-- C4: for every nonempty slash-free `name` and every `rest`, the four
recognized path shapes `/name`, `/name/`, `/name/latest` and
`/name/latest/rest` all match, and the extracted package name is exactly
`name`. The matcher is a pure function of the path string. -/
theorem pathMatch_shapes (name rest : String) (h0 : name ≠ "") (h1 : '/' ∉ name.data) :
    pathMatch ("/" ++ name) = some name ∧
    pathMatch ("/" ++ name ++ "/") = some name ∧
    pathMatch ("/" ++ name ++ "/latest") = some name ∧
    pathMatch ("/" ++ name ++ "/latest/" ++ rest) = some name := by
  have hall : ∀ c ∈ name.data, (c != '/') = true := by
    intro c hc
    exact bne_iff_ne.mpr (fun e => h1 (e ▸ hc))
  have hne : ¬ name.data.isEmpty := by
    cases hd : name.data with
    | nil => exact absurd (String.ext (by simp [hd])) h0
    | cons a t => simp
  have hmk : String.mk name.data = name := rfl
  refine ⟨?_, ?_, ?_, ?_⟩
  · rw [slash_append, pathMatch_mk]
    obtain ⟨t1, t2⟩ := takeWhile_all_no_slash name.data hall
    simp [t1, t2, hne, hmk]
  · rw [slash_append2, pathMatch_mk]
    obtain ⟨t1, t2⟩ := takeWhile_no_slash name.data ['/'] hall
    simp only [t1, t2]
    simp [hne, hmk, List.takeWhile, List.dropWhile]
  · rw [slash_append3, pathMatch_mk]
    obtain ⟨t1, t2⟩ := takeWhile_no_slash name.data "/latest".data hall
    simp only [t1, t2]
    simp [hne, hmk, List.takeWhile, List.dropWhile]
  · rw [slash_append4, pathMatch_mk]
    obtain ⟨t1, t2⟩ := takeWhile_no_slash name.data ("/latest/".data ++ rest.data) hall
    simp only [t1, t2]
    have hpre : ("/latest/".data).isPrefixOf ("/latest/".data ++ rest.data) = true :=
      isPrefixOf_self_append _ _
    simp [hne, hmk, List.takeWhile, List.dropWhile, hpre]

/-- C4 witness: the four shapes instantiated at name `asar`, rest `x/y`. -/
theorem pathMatch_shapes_witness :
    "asar" ≠ "" ∧ '/' ∉ "asar".data ∧
    (pathMatch ("/" ++ "asar") = some "asar" ∧
     pathMatch ("/" ++ "asar" ++ "/") = some "asar" ∧
     pathMatch ("/" ++ "asar" ++ "/latest") = some "asar" ∧
     pathMatch ("/" ++ "asar" ++ "/latest/" ++ "x/y") = some "asar") :=
  ⟨by decide, by decide, pathMatch_shapes "asar" "x/y" (by decide) (by decide)⟩

/-- C5: any request whose path does not match the recognized shapes gets a
302 redirect to the service's own root (the bare base origin), with no
pass-through and no side effects. -/
theorem no_match_redirects_root (req : Request) (env : Env)
    (h : pathMatch req.pathname = none) :
    handleRequest req env = (HandlerResult.redirect baseOrigin 302, ⟨0, [], []⟩) := by
  simp [handleRequest, h]

/-- C5 witness: the two-segment path `/a/b` does not match and is bounced
to the service root. -/
theorem no_match_redirects_root_witness :
    pathMatch "/a/b" = none ∧
    handleRequest ⟨"/a/b", ""⟩ envDown =
      (HandlerResult.redirect baseOrigin 302, ⟨0, [], []⟩) :=
  ⟨by decide, no_match_redirects_root ⟨"/a/b", ""⟩ envDown (by decide)⟩

/-- C6: on a cache hit with a non-empty version the handler redirects with
status 302 to the URL built from the cached version, making no upstream
call and no cache write. -/
theorem cache_hit_redirects (req : Request) (env : Env) (name v : String)
    (hm : pathMatch req.pathname = some name)
    (hg : env.kv.getThrows = false)
    (hv : env.kv.val name = some v)
    (hne : v ≠ "") :
    handleRequest req env =
      (HandlerResult.redirect
        (baseOrigin ++ "/" ++ name ++ "/v" ++ v ++ "/index.html" ++ req.search) 302,
       ⟨1, [], []⟩) := by
  have hb : (v != "") = true := bne_iff_ne.mpr hne
  simp [handleRequest, hm, handleMatched, hg, hv, truthy, hb, redirectFor, renderVersion]

/-- C6 witness: cache `asar ↦ 4.0.1` and path `/asar/latest` yield a 302
to `.../asar/v4.0.1/index.html` with no upstream call. -/
theorem cache_hit_redirects_witness :
    pathMatch "/asar/latest" = some "asar" ∧
    handleRequest ⟨"/asar/latest", ""⟩ envHit =
      (HandlerResult.redirect
        (baseOrigin ++ "/" ++ "asar" ++ "/v" ++ "4.0.1" ++ "/index.html" ++ "") 302,
       ⟨1, [], []⟩) :=
  ⟨by decide, cache_hit_redirects ⟨"/asar/latest", ""⟩ envHit "asar" "4.0.1"
    (by decide) (by decide) (by decide) (by decide)⟩

/-- C7: on a cache miss with a successful upstream call whose body carries
a usable version, that version is adopted, written to the cache under the
package name with a 600-second TTL, and the redirect uses it; moreover
every request performs at most one cache read, at most one cache write and
at most one upstream call. -/
theorem upstream_success_writes_cache :
    (∀ (req : Request) (env : Env) (name v : String),
        pathMatch req.pathname = some name →
        env.kv.getThrows = false →
        truthy (env.kv.val name) = false →
        (env.upstream name).fetchThrows = false →
        (env.upstream name).ok = true →
        (env.upstream name).jsonThrows = false →
        (env.upstream name).version = some v →
        v ≠ "" →
        env.kv.putThrows = false →
        handleRequest req env =
          (HandlerResult.redirect
            (baseOrigin ++ "/" ++ name ++ "/v" ++ v ++ "/index.html" ++ req.search) 302,
           ⟨1, [(name, v, 600)], [registryUrl name]⟩)) ∧
    (∀ (req : Request) (env : Env),
        (handleRequest req env).2.cacheReads ≤ 1 ∧
        (handleRequest req env).2.cacheWrites.length ≤ 1 ∧
        (handleRequest req env).2.upstreamCalls.length ≤ 1) := by
  constructor
  · intro req env name v hm hg ht hf ho hj hv hne hp
    have hb : (v != "") = true := bne_iff_ne.mpr hne
    simp [handleRequest, hm, handleMatched, hg, ht, hf, ho, hj, hv, hb, hp,
      redirectFor, renderVersion]
  · intro req env
    cases hpm : pathMatch req.pathname with
    | none => simp [handleRequest, hpm]
    | some name =>
      rcases handleMatched_effects name req.search env with h | h | ⟨w, h⟩ <;>
        simp [handleRequest, hpm, h]

/-- C7 witness: empty cache, upstream answering `/foo` with ok and version
5.0.0; the cache write `(foo, 5.0.0, 600)` and single upstream call. -/
theorem upstream_success_writes_cache_witness :
    pathMatch "/foo" = some "foo" ∧
    handleRequest ⟨"/foo", ""⟩ envMiss =
      (HandlerResult.redirect
        (baseOrigin ++ "/" ++ "foo" ++ "/v" ++ "5.0.0" ++ "/index.html" ++ "") 302,
       ⟨1, [("foo", "5.0.0", 600)], [registryUrl "foo"]⟩) :=
  ⟨by decide, upstream_success_writes_cache.1 ⟨"/foo", ""⟩ envMiss "foo" "5.0.0"
    (by decide) (by decide) (by decide) (by decide) (by decide) (by decide) (by decide)
    (by decide) (by decide)⟩

/-- C8: whenever a version was obtained, the redirect URL is some prefix
followed by the original request's query string, carried over verbatim. -/
theorem query_string_preserved (req : Request) (env : Env) (name v : String)
    (hm : pathMatch req.pathname = some name)
    (hv : obtainedVersion name env = some v) :
    ∃ p, (handleRequest req env).1 = HandlerResult.redirect (p ++ req.search) 302 := by
  refine ⟨baseOrigin ++ "/" ++ name ++ "/v" ++ v ++ "/index.html", ?_⟩
  have h := handleMatched_fst_obtained name req.search env v hv
  simp only [handleRequest, hm]
  rw [h]
  rfl

/-- C8 witness: `/asar/latest?foo=bar` with a cache hit on `asar` redirects
to a URL ending in `?foo=bar`. -/
theorem query_string_preserved_witness :
    ∃ p, (handleRequest ⟨"/asar/latest", "?foo=bar"⟩ envHit).1 =
      HandlerResult.redirect (p ++ "?foo=bar") 302 :=
  query_string_preserved ⟨"/asar/latest", "?foo=bar"⟩ envHit "asar" "4.0.1"
    (by decide) (by decide)

/-- C9: a request whose path does not match performs no cache read, no
cache write and no upstream call: the effect log is empty. -/
theorem no_match_no_effects (req : Request) (env : Env)
    (h : pathMatch req.pathname = none) :
    (handleRequest req env).2 = ⟨0, [], []⟩ := by
  simp [handleRequest, h]

/-- C9 witness: the path `//` (empty first segment) does not match and
touches neither the cache nor the upstream. -/
theorem no_match_no_effects_witness :
    pathMatch "//" = none ∧
    (handleRequest ⟨"//", ""⟩ envMiss).2 = ⟨0, [], []⟩ :=
  ⟨by decide, no_match_no_effects ⟨"//", ""⟩ envMiss (by decide)⟩

/-- C10: a cache read returning the empty string behaves like an absent
entry: the hit branch is not taken, the upstream is queried, and both the
side effects and the obtained version coincide with those for the same
environment with the entry removed. -/
theorem empty_cache_value_is_miss (req : Request) (env : Env) (name : String)
    (hm : pathMatch req.pathname = some name)
    (hg : env.kv.getThrows = false)
    (hv : env.kv.val name = some "") :
    (handleRequest req env).2.upstreamCalls = [registryUrl name] ∧
    (handleRequest req env).2 =
      (handleRequest req
        ⟨⟨fun k => if k = name then none else env.kv.val k,
          env.kv.getThrows, env.kv.putThrows⟩, env.upstream⟩).2 ∧
    obtainedVersion name env =
      obtainedVersion name
        ⟨⟨fun k => if k = name then none else env.kv.val k,
          env.kv.getThrows, env.kv.putThrows⟩, env.upstream⟩ := by
  obtain ⟨⟨val, gt, pt⟩, up⟩ := env
  simp only at hg hv
  subst hg
  rcases hu : up name with ⟨ft, ok, jt, ver⟩
  refine ⟨?_, ?_, ?_⟩ <;>
    simp only [handleRequest, hm, handleMatched, obtainedVersion, hu, hv] <;>
    cases pt <;> cases ft <;> cases ok <;> cases jt <;> rcases ver with _ | w <;>
    simp_all [truthy] <;>
    (rcases hw : (w != "") <;> simp_all)

/-- C10 witness: cache `qux ↦ ""`; the request `/qux` queries the upstream
and behaves like a genuine miss. -/
theorem empty_cache_value_is_miss_witness :
    (handleRequest ⟨"/qux", ""⟩ envEmptyStr).2.upstreamCalls = [registryUrl "qux"] ∧
    (handleRequest ⟨"/qux", ""⟩ envEmptyStr).2 =
      (handleRequest ⟨"/qux", ""⟩
        ⟨⟨fun k => if k = "qux" then none else envEmptyStr.kv.val k,
          envEmptyStr.kv.getThrows, envEmptyStr.kv.putThrows⟩, envEmptyStr.upstream⟩).2 ∧
    obtainedVersion "qux" envEmptyStr =
      obtainedVersion "qux"
        ⟨⟨fun k => if k = "qux" then none else envEmptyStr.kv.val k,
          envEmptyStr.kv.getThrows, envEmptyStr.kv.putThrows⟩, envEmptyStr.upstream⟩ :=
  empty_cache_value_is_miss ⟨"/qux", ""⟩ envEmptyStr "qux" (by decide) (by decide) (by decide)

end Redirect
